import Mathlib

/-!
Verification of the gp4par place-and-route core of the openfpga repository.

We give a shallow embedding of the post-PAR design-rule checks
(`PostPARDRC` in src/gp4par/par_main.cpp), the label allocator
(`AllocateLabel`), the top-level solve driver (`DoPAR`), the bitstream
download patching in gp4prog (src/gp4prog/main.cpp), and the netlist
module loader (src/greenpak4/Greenpak4NetlistModule.cpp), and prove the
specification's claims about them.

C++ side effects are made explicit: a `fprintf(stderr, ...); exit(-1)`
pair becomes an error value carrying exactly the data the diagnostic
prints, a `printf` warning or info line becomes a returned message or
flag, and dereferencing a null pointer becomes a distinguished crash
outcome that preempts everything the code would do afterwards.
-/

namespace OpenFPGA

/-- A `Greenpak4EntityOutput`: a device entity together with one of its named
output ports.  Equality in the C++ code compares the underlying entity and
port, which the constructors capture.  `vdd` and `gnd` are the two
distinguished power rails. -/
inductive EntityOutput where
  | vdd
  | gnd
  | iobOut (pin : Nat) (port : String)
  | sigOut (entity : String) (port : String)
deriving DecidableEq, Repr

/-- `Greenpak4EntityOutput::IsPowerRail`: true exactly for the `VDD` and
`GND` constant drivers. -/
def EntityOutput.isPowerRail : EntityOutput → Bool
  | .vdd => true
  | .gnd => true
  | _ => false

/-- The output of IOB pin 6 with the empty port name:
`device->GetIOB(6)->GetOutput("")` in `PostPARDRC`. -/
def pin6 : EntityOutput := .iobOut 6 ""

/-!
## The per-node loop of PostPARDRC (par_main.cpp lines 72-111)

For each netlist graph node the code fetches the payload, fetches the mate,
and immediately calls `mate->GetData()` - BEFORE the `if(mate == NULL)`
test on line 80.  For an unmated node this dereferences a null pointer, so
the evaluator below returns `nullDeref` in that case; the intended
`fatalUnmated` outcome of lines 80-87 is unreachable.
-/

/-- What the device mate of a netlist node exposes to the DRC: whether it is
a `Greenpak4PowerRail`, and how many output ports `GetOutputPorts` returns. -/
structure DeviceMate where
  isPowerRail : Bool
  outputPortCount : Nat
deriving DecidableEq, Repr

/-- A netlist graph node as seen by the per-node DRC loop: diagnostic name,
whether the payload downcasts to `Greenpak4NetlistCell` (and its type
string), the optional mate, and `GetEdgeCount()` (number of loads). -/
structure NetNode where
  name : String
  isCell : Bool
  cellType : String
  mate : Option DeviceMate
  edgeCount : Nat
deriving DecidableEq, Repr

/-- Outcome of the per-node DRC checks for one node. -/
inductive NodeCheckOutcome where
  /-- `mate->GetData()` was evaluated with `mate == NULL` (undefined
  behaviour; the process never reaches the diagnostic). -/
  | nullDeref
  /-- The line-80 branch: ERROR "is not mapped to any site in the device"
  naming the node, followed by `exit(-1)`. -/
  | fatalUnmated (name : String)
  /-- Checks passed; `some name` records a WARNING "Node name has no load". -/
  | ok (warning : Option String)
deriving DecidableEq, Repr

/-- The body of the per-node loop of `PostPARDRC` (par_main.cpp 72-111),
with the source's evaluation order: `mate->GetData()` is evaluated before
the `mate == NULL` test. -/
def nodeDrcCheck (node : NetNode) : NodeCheckOutcome :=
  match node.mate with
  | none => .nullDeref
  | some dst =>
    -- here the line-80 test `mate == NULL` is false, so no fatal branch
    if dst.isPowerRail then .ok none
    else if dst.outputPortCount = 0 then .ok none
    else if node.isCell && (node.cellType == "GP_IOBUF" || node.cellType == "GP_OBUF") then
      .ok none
    else if node.edgeCount = 0 then .ok (some node.name)
    else .ok none

/-!
## The ACMP0 shared-input-mux check (par_main.cpp lines 140-211)

On the SLG46620 the code walks every analog comparator, collects those
whose input comes from the shared ACMP0 mux (pin 6 buffered or VDD) and
whose PAR node is mated, then checks they all agree, and finally
synthesizes the ACMP0 owner configuration when needed.
-/

/-- An analog comparator as seen by the shared-mux check: its configured
input (`GetInput`), the instance name of its netlist mate when its PAR node
is mated (`GetPARNode()->GetMate()`), and its power enable (`SetPowerEn`
target, read back for the synthesis claim). -/
structure Acmp where
  input : EntityOutput
  mateName : Option String
  powerEn : EntityOutput
deriving DecidableEq, Repr

/-- The collection loop (lines 153-169): for each comparator whose input is
pin 6 or VDD and whose PAR node is mated, record the mate's instance name
together with the requested input. -/
def acmpCollect (acmps : List Acmp) : List (String × EntityOutput) :=
  acmps.filterMap fun a =>
    if a.input = pin6 ∨ a.input = EntityOutput.vdd then
      match a.mateName with
      | some n => some (n, a.input)
      | none => none
    else
      none

/-- The agreement loop (lines 172-193): `shared_input` starts at ground,
takes the first requested source, and any later differing source is a fatal
error whose diagnostic lists every collected (comparator, source) pair.
The error value carries that list. -/
def sharedMuxGo (inputs : List (String × EntityOutput)) :
    EntityOutput → List (String × EntityOutput) →
    Except (List (String × EntityOutput)) EntityOutput
  | shared, [] => .ok shared
  | shared, s :: rest =>
    let shared1 := if shared = EntityOutput.gnd then s.2 else shared
    if shared1 = s.2 then sharedMuxGo inputs shared1 rest
    else .error inputs

/-- The whole agreement check over the collected inputs. -/
def acmpSharedCheck (inputs : List (String × EntityOutput)) :
    Except (List (String × EntityOutput)) EntityOutput :=
  sharedMuxGo inputs EntityOutput.gnd inputs

/-- The device state the SLG46620 branch of `PostPARDRC` touches: the
comparators (index 0 is ACMP0) and the power-on-reset block's RST_DONE
output (`device->GetPowerOnReset()->GetOutput("RST_DONE")`). -/
structure AcmpDevice where
  acmps : List Acmp
  porRstDone : EntityOutput
deriving DecidableEq, Repr

/-- `device->GetAcmp(0)` of the model. -/
def AcmpDevice.acmp0 (dev : AcmpDevice) : Acmp :=
  dev.acmps.headD ⟨EntityOutput.gnd, none, EntityOutput.gnd⟩

/-- Lines 197-205: overwrite ACMP0's input with the agreed shared source
and its power enable with POR RST_DONE. -/
def AcmpDevice.setAcmp0 (dev : AcmpDevice) (sh : EntityOutput) : AcmpDevice :=
  { dev with acmps :=
      match dev.acmps with
      | [] => []
      | a0 :: rest => { a0 with input := sh, powerEn := dev.porRstDone } :: rest }

/-- The complete SLG46620 branch (lines 144-207): collect, check agreement
(fatal error carrying the printed list on conflict), then synthesize the
ACMP0 owner configuration when its input is still ground and the mux is
used; the Bool records whether the INFO line was printed. -/
def acmpDrc (dev : AcmpDevice) :
    Except (List (String × EntityOutput)) (AcmpDevice × Bool) :=
  let inputs := acmpCollect dev.acmps
  match acmpSharedCheck inputs with
  | .error e => .error e
  | .ok sh =>
    if dev.acmp0.input = EntityOutput.gnd ∧ inputs.length > 0 then
      .ok (dev.setAcmp0 sh, true)
    else
      .ok (dev, false)

/-!
## The oscillator power-down sharing check (par_main.cpp lines 213-244)
-/

/-- An oscillator (LF, ring or RC) as seen by the power-down check:
`GetDescription`, `IsUsed`, `GetPowerDownEn`, `GetPowerDown`. -/
structure Oscillator where
  desc : String
  used : Bool
  powerDownEn : Bool
  powerDown : EntityOutput
deriving DecidableEq, Repr

/-- Modelled from the spec: `IsConstantPowerDown` is defined in the
oscillator classes, which are not part of the sources at hand; per the
spec's data model the two distinguished sites VDD and GND "act as constant
drivers", so a constant power-down source is a power rail. -/
def Oscillator.isConstantPowerDown (o : Oscillator) : Bool :=
  o.powerDown.isPowerRail

/-- Lines 217-223: collect (description, power-down source) for every used
oscillator with power-down enabled and a non-constant power-down source. -/
def oscCollect (lfosc rosc rcosc : Oscillator) : List (String × EntityOutput) :=
  [lfosc, rosc, rcosc].filterMap fun o =>
    if o.used && o.powerDownEn && !o.isConstantPowerDown then
      some (o.desc, o.powerDown)
    else
      none

/-- The agreement loop (lines 226-234): `src` starts at ground; while it is
a power rail it is replaced by the current source; `ok` latches false on
any mismatch, and the loop runs to the end. -/
def oscCheckGo : Bool → EntityOutput → List (String × EntityOutput) → Bool
  | ok, _, [] => ok
  | ok, src, p :: rest =>
    let src1 := if src.isPowerRail then p.2 else src
    let ok1 := if src1 ≠ p.2 then false else ok
    oscCheckGo ok1 src1 rest

/-- The whole oscillator power-down rule (lines 213-244): if the collected
list is non-empty and the sources disagree, a fatal error lists every
(oscillator, power-down source) pair; otherwise nothing happens. -/
def oscDrc (lfosc rosc rcosc : Oscillator) : Option (List (String × EntityOutput)) :=
  let pds := oscCollect lfosc rosc rcosc
  if pds.isEmpty then none
  else if oscCheckGo true EntityOutput.gnd pds then none
  else some pds

/-!
## Label allocation (par_main.cpp lines 251-264)
-/

/-- Modelled from the spec: `PARGraph::AllocateLabel` lives in the xbpar
graph library, which is not among the sources at hand; per the spec a label
is "a small integer identifier drawn from a shared, monotonically allocated
namespace", so each graph hands out its next counter value and increments. -/
structure PARGraph where
  nextLabel : Nat
deriving DecidableEq, Repr

def PARGraph.allocateOne (g : PARGraph) : Nat × PARGraph :=
  (g.nextLabel, { nextLabel := g.nextLabel + 1 })

/-- The `labelmap` of gp4par: label id to description, newest binding
first (later `lmap[n] = d` assignments shadow older ones). -/
def insertLabel (lmap : List (Nat × String)) (n : Nat) (d : String) :
    List (Nat × String) :=
  (n, d) :: lmap

/-- `AllocateLabel` (par_main.cpp 251-264): allocate on both graphs, fail
with the internal-error diagnostic when the ids diverge, otherwise record
the description under the common id and return it with the new states. -/
def AllocateLabel (ngraph dgraph : PARGraph) (lmap : List (Nat × String))
    (description : String) :
    Except String (Nat × PARGraph × PARGraph × List (Nat × String)) :=
  let nres := ngraph.allocateOne
  let dres := dgraph.allocateOne
  if nres.1 ≠ dres.1 then
    .error "INTERNAL ERROR: labels were allocated at the same time but do not match up"
  else
    .ok (nres.1, nres.2, dres.2, insertLabel lmap nres.1 description)

/-!
## The DoPAR driver (par_main.cpp lines 26-62)

The engine, commit stage and report printers are external collaborators;
`DoPAR` is modelled as the driver that sequences them, with the observable
side effects recorded in an action trace and the device catalog state
threaded through the commit and DRC functions it is given.
-/

/-- The externally observable steps `DoPAR` can take after the engine
returns. -/
inductive ParAction where
  | printPlacementReport
  | printMsgParFailed
  | commitChanges
  | postParDrc
  | printUtilizationReport
deriving DecidableEq, Repr

/-- `DoPAR` (par_main.cpp 26-62) after `BuildGraphs`: run the engine; on
failure print the placement report and "PAR failed" and return false; on
success commit, run the DRC, print both reports and return true.  `dev` is
the device catalog state, mutated only by the `commit` and `drc` functions
passed in. -/
def DoPAR {α : Type} (engineOk : Bool) (commit : α → α) (drc : α → α)
    (dev : α) : Bool × α × List ParAction :=
  if !engineOk then
    (false, dev, [.printPlacementReport, .printMsgParFailed])
  else
    let dev1 := commit dev
    let dev2 := drc dev1
    (true, dev2,
      [.commitChanges, .postParDrc, .printUtilizationReport, .printPlacementReport])

/-!
## gp4prog bitstream download patching (gp4prog/main.cpp lines 346-372)

The bitstream is a vector of `uint8_t`.  Bytes are modelled as `Nat` with
an explicit `% 256` on every store, matching the truncation of the C++
assignment back into `uint8_t`.
-/

/-- Read byte `i` of the bitstream (`newBitstream[i]`). -/
def getByte (bs : List Nat) (i : Nat) : Nat := bs.getD i 0

/-- Write byte `i` of the bitstream; out-of-range writes are a no-op (the
code checks `newBitstream.size()` against the part's bitstream length
before this point). -/
def setByte : List Nat → Nat → Nat → List Nat
  | [], _, _ => []
  | _ :: rest, 0, v => v :: rest
  | b :: rest, i + 1, v => b :: setByte rest i v

/-- One `newBitstream[i] |= x` statement: OR then truncate to `uint8_t`. -/
def orByte (bs : List Nat) (i : Nat) (x : Nat) : List Nat :=
  setByte bs i ((getByte bs i ||| x) % 256)

/-- Lines 346-372 of gp4prog's `main`: fold the oscillator trim value into
bytes 246/247, the pattern id (when given on the command line) into bytes
253/254, and the read-protect flag into bit 7 of byte 254, all by
bitwise OR.  `rcFtw` and `patternId` are `uint8_t` in the source. -/
def applyDownloadMods (bs : List Nat) (rcFtw : Nat) (patternIdSpecified : Bool)
    (patternId : Nat) (readProtect : Bool) : List Nat :=
  let bs1 := orByte bs 246 (rcFtw <<< 7)
  let bs2 := orByte bs1 247 (rcFtw >>> 1)
  let bs3 :=
    if patternIdSpecified then
      let t := orByte bs2 253 (patternId <<< 7)
      orByte t 254 (patternId >>> 1)
    else bs2
  orByte bs3 254 ((if readProtect then 1 else 0) <<< 7)

/-!
## Netlist module loading (Greenpak4NetlistModule.cpp lines 28-97, 117-125)
-/

/-- The "ports" branch of the `Greenpak4NetlistModule` constructor loop
(lines 67-79).  `groupName` is the constructor's outer loop variable
`name` (the key of the enclosing JSON object, `"ports"` for this branch);
`cnames` are the port names in declaration order.  On a redeclared port the
code prints `Attempted redeclaration of module port "%s"` with
`name.c_str()` - the GROUP name, not the port name - and exits. -/
def loadPorts (groupName : String) (cnames : List String)
    (ports : List String) : Except String (List String) :=
  match cnames with
  | [] => .ok ports
  | cname :: rest =>
    if cname ∈ ports then
      .error ("ERROR: Attempted redeclaration of module port \x22" ++ groupName ++ "\x22")
    else
      loadPorts groupName rest (ports ++ [cname])

/-- The node table of a `Greenpak4NetlistModule`: net number to node id,
plus a fresh-id counter standing for `new Greenpak4NetlistNode`. -/
structure ModuleNodes where
  nodes : List (Int × Nat)
  nextId : Nat
deriving DecidableEq, Repr

/-- `Greenpak4NetlistModule::GetNode` (lines 117-125): if no node with this
net number exists, create one; then return `m_nodes[netnum]`. -/
def GetNode (m : ModuleNodes) (netnum : Int) : Nat × ModuleNodes :=
  match m.nodes.lookup netnum with
  | some id => (id, m)
  | none =>
    let m1 : ModuleNodes :=
      { nodes := m.nodes ++ [(netnum, m.nextId)], nextId := m.nextId + 1 }
    (m.nextId, m1)

/-!
## Helper lemmas
-/

theorem lookup_append_single {l : List (Int × Nat)} {k : Int}
    (h : l.lookup k = none) (v : Nat) : (l ++ [(k, v)]).lookup k = some v := by
  induction l with
  | nil => simp [List.lookup]
  | cons p rest ih =>
    simp only [List.lookup, List.cons_append] at h ⊢
    cases hkp : (k == p.1) with
    | true => simp [hkp] at h
    | false => simp only [hkp] at h ⊢; exact ih h

/-!
## Claims about the per-node DRC loop
-/

/-- C1: for a netlist node with no mate, the per-node loop of `PostPARDRC`
dereferences the null mate (`mate->GetData()`, line 77) before the
`mate == NULL` test of line 80, so the intended fatal
"is not mapped to any site in the device" diagnostic is never reached. -/
theorem unmated_node_crashes_before_fatal_check :
    nodeDrcCheck { name := "n1", isCell := false, cellType := "", mate := none, edgeCount := 0 }
      = NodeCheckOutcome.nullDeref ∧
    nodeDrcCheck { name := "n1", isCell := false, cellType := "", mate := none, edgeCount := 0 }
      ≠ NodeCheckOutcome.fatalUnmated "n1" := by
  exact ⟨rfl, by decide⟩

/-- C5: a mated node gets the "has no load" warning (naming it) exactly
when it has zero outgoing edges, its mate is not a power rail, its mate has
at least one output port, and the node is not a cell of type GP_IOBUF or
GP_OBUF; and for every mated node the loop body only ever warns - it never
takes a fatal or crashing branch, so control flow is unaffected. -/
theorem noload_warning_iff (node : NetNode) (dst : DeviceMate)
    (h : node.mate = some dst) :
    (nodeDrcCheck node = NodeCheckOutcome.ok (some node.name) ↔
      node.edgeCount = 0 ∧ dst.isPowerRail = false ∧ dst.outputPortCount ≠ 0 ∧
        ¬(node.isCell = true ∧ (node.cellType = "GP_IOBUF" ∨ node.cellType = "GP_OBUF"))) ∧
    ∃ w, nodeDrcCheck node = NodeCheckOutcome.ok w := by
  have e : nodeDrcCheck node =
      (if dst.isPowerRail then NodeCheckOutcome.ok none
       else if dst.outputPortCount = 0 then NodeCheckOutcome.ok none
       else if node.isCell && (node.cellType == "GP_IOBUF" || node.cellType == "GP_OBUF") then
         NodeCheckOutcome.ok none
       else if node.edgeCount = 0 then NodeCheckOutcome.ok (some node.name)
       else NodeCheckOutcome.ok none) := by
    unfold nodeDrcCheck
    rw [h]
  rw [e]
  constructor
  · split_ifs with h1 h2 h3 h4 <;> simp_all
  · split_ifs <;> exact ⟨_, rfl⟩

/-- Witness for C5 at a concrete flip-flop node with no loads. -/
theorem noload_warning_iff_witness :
    ({ name := "ff", isCell := true, cellType := "GP_DFF",
       mate := some ⟨false, 1⟩, edgeCount := 0 } : NetNode).mate
        = some (⟨false, 1⟩ : DeviceMate) ∧
    ∃ w, nodeDrcCheck
      { name := "ff", isCell := true, cellType := "GP_DFF",
        mate := some ⟨false, 1⟩, edgeCount := 0 } = NodeCheckOutcome.ok w :=
  ⟨rfl,
    (noload_warning_iff
      { name := "ff", isCell := true, cellType := "GP_DFF",
        mate := some ⟨false, 1⟩, edgeCount := 0 } ⟨false, 1⟩ rfl).2⟩

/-- A list has two entries with different second components iff some entry
disagrees with the head. -/
theorem exists_pair_ne_cons {α β : Type} (s : α × β) (rest : List (α × β)) :
    (∃ p ∈ rest, p.2 ≠ s.2) ↔
      ∃ p ∈ s :: rest, ∃ q ∈ s :: rest, p.2 ≠ q.2 := by
  constructor
  · rintro ⟨p, hp, hne⟩
    exact ⟨p, List.mem_cons_of_mem s hp, s, List.mem_cons_self s rest, hne⟩
  · rintro ⟨p, hp, q, hq, hne⟩
    rcases List.mem_cons.mp hp with hp1 | hp1
    · rcases List.mem_cons.mp hq with hq1 | hq1
      · exact absurd (by rw [hp1, hq1]) hne
      · refine ⟨q, hq1, fun e => hne ?_⟩
        rw [hp1, e]
    · rcases List.mem_cons.mp hq with hq1 | hq1
      · refine ⟨p, hp1, fun e => hne ?_⟩
        rw [e, hq1]
      · by_cases hps : p.2 = s.2
        · refine ⟨q, hq1, fun e => hne ?_⟩
          rw [hps, e]
        · exact ⟨p, hp1, hps⟩

/-!
## Claims about the ACMP0 shared-mux check
-/

theorem acmpCollect_sources {acmps : List Acmp} {p : String × EntityOutput}
    (hp : p ∈ acmpCollect acmps) : p.2 = pin6 ∨ p.2 = EntityOutput.vdd := by
  simp only [acmpCollect, List.mem_filterMap] at hp
  obtain ⟨a, -, ha⟩ := hp
  by_cases hc : a.input = pin6 ∨ a.input = EntityOutput.vdd
  · rw [if_pos hc] at ha
    cases hm : a.mateName with
    | none => rw [hm] at ha; exact Option.noConfusion ha
    | some n =>
      rw [hm] at ha
      obtain rfl := Option.some.inj ha
      exact hc
  · rw [if_neg hc] at ha
    exact Option.noConfusion ha

theorem sharedMuxGo_error_iff (inputs : List (String × EntityOutput))
    {shared : EntityOutput} (hsh : shared ≠ EntityOutput.gnd)
    (l : List (String × EntityOutput)) :
    sharedMuxGo inputs shared l = .error inputs ↔ ∃ p ∈ l, p.2 ≠ shared := by
  induction l with
  | nil => simp [sharedMuxGo]
  | cons s rest ih =>
    simp only [sharedMuxGo, if_neg hsh]
    by_cases hs : shared = s.2
    · rw [if_pos hs, ih]
      constructor
      · rintro ⟨p, hp, hne⟩
        exact ⟨p, List.mem_cons_of_mem _ hp, hne⟩
      · rintro ⟨p, hp, hne⟩
        rcases List.mem_cons.mp hp with rfl | hp1
        · exact absurd hs.symm hne
        · exact ⟨p, hp1, hne⟩
    · rw [if_neg hs]
      constructor
      · intro _
        exact ⟨s, List.mem_cons_self _ _, fun e => hs e.symm⟩
      · intro _
        rfl

/-- C2: on the SLG46620, the shared-mux agreement check raises its fatal
diagnostic - whose payload lists every collected (instance name, requested
source) pair - exactly when two mated comparators drawing from the shared
ACMP0 mux (input pin 6 or VDD) request different sources; when they all
agree no error is raised. -/
theorem acmp_shared_mux_conflict_iff (acmps : List Acmp) :
    acmpSharedCheck (acmpCollect acmps) = .error (acmpCollect acmps) ↔
      ∃ p ∈ acmpCollect acmps, ∃ q ∈ acmpCollect acmps, p.2 ≠ q.2 := by
  rcases hc : acmpCollect acmps with - | ⟨s, rest⟩
  · simp [acmpSharedCheck, sharedMuxGo]
  · have hs2 : s.2 ≠ EntityOutput.gnd := by
      have hmem : s ∈ acmpCollect acmps := by
        rw [hc]; exact List.mem_cons_self _ _
      rcases acmpCollect_sources hmem with h | h <;> rw [h] <;> decide
    have e1 : acmpSharedCheck (s :: rest) = sharedMuxGo (s :: rest) s.2 rest := by
      simp [acmpSharedCheck, sharedMuxGo]
    rw [e1, sharedMuxGo_error_iff (s :: rest) hs2 rest, exists_pair_ne_cons s rest]

/-!
## Claims about the oscillator power-down check
-/

theorem oscCollect_not_rail {lfosc rosc rcosc : Oscillator}
    {p : String × EntityOutput} (hp : p ∈ oscCollect lfosc rosc rcosc) :
    p.2.isPowerRail = false := by
  simp only [oscCollect, List.mem_filterMap] at hp
  obtain ⟨o, -, ho⟩ := hp
  by_cases hc : (o.used && o.powerDownEn && !o.isConstantPowerDown) = true
  · rw [if_pos hc] at ho
    obtain rfl := Option.some.inj ho
    have h2 := (Bool.and_eq_true _ _).mp hc
    simpa [Oscillator.isConstantPowerDown] using h2.2
  · rw [if_neg hc] at ho
    exact Option.noConfusion ho

theorem oscCheckGo_non_rail (ok : Bool) {src : EntityOutput}
    (hsrc : src.isPowerRail = false) (l : List (String × EntityOutput)) :
    oscCheckGo ok src l = (ok && l.all fun p => p.2 == src) := by
  induction l generalizing ok with
  | nil => simp [oscCheckGo]
  | cons p rest ih =>
    simp only [oscCheckGo, hsrc, if_false, Bool.false_eq_true]
    by_cases hp : p.2 = src
    · rw [if_neg (by simp [hp]), ih ok]
      simp [hp]
    · rw [if_pos (by simp [Ne.symm hp]), ih false]
      simp [hp]

/-- C4: considering the LF, ring and RC oscillators, the power-down rule
raises its fatal diagnostic - whose payload lists every (oscillator
description, power-down source) pair in the collected set - exactly when
two used oscillators with power-down enabled and a non-constant power-down
source have distinct sources; when the set is empty or all sources agree,
no error is raised. -/
theorem osc_powerdown_conflict_iff (lfosc rosc rcosc : Oscillator) :
    oscDrc lfosc rosc rcosc = some (oscCollect lfosc rosc rcosc) ↔
      ∃ p ∈ oscCollect lfosc rosc rcosc, ∃ q ∈ oscCollect lfosc rosc rcosc,
        p.2 ≠ q.2 := by
  rcases hc : oscCollect lfosc rosc rcosc with - | ⟨s, rest⟩
  · simp [oscDrc, hc]
  · have hmemS : s ∈ oscCollect lfosc rosc rcosc := by
      rw [hc]
      exact List.mem_cons_self s rest
    have hs : s.2.isPowerRail = false := oscCollect_not_rail hmemS
    have e : oscCheckGo true EntityOutput.gnd (s :: rest)
        = (rest.all fun p => p.2 == s.2) := by
      have h1 : oscCheckGo true EntityOutput.gnd (s :: rest)
          = oscCheckGo true s.2 rest := by
        simp [oscCheckGo, EntityOutput.isPowerRail]
      rw [h1, oscCheckGo_non_rail true hs rest, Bool.true_and]
    have e2 : oscDrc lfosc rosc rcosc
        = (if rest.all (fun p => p.2 == s.2) then none else some (s :: rest)) := by
      simp only [oscDrc, hc, e, List.isEmpty_cons, Bool.false_eq_true, if_false]
    rw [e2, ← exists_pair_ne_cons s rest]
    by_cases hall : (rest.all fun p => p.2 == s.2) = true
    · rw [if_pos hall]
      have hall2 : ∀ p ∈ rest, p.2 = s.2 := by
        intro p hp
        exact beq_iff_eq.mp (List.all_eq_true.mp hall p hp)
      constructor
      · intro h
        exact Option.noConfusion h
      · rintro ⟨p, hp, hne⟩
        exact absurd (hall2 p hp) hne
    · rw [if_neg hall]
      constructor
      · intro _
        have hex : ∃ p ∈ rest, ¬((p.2 == s.2) = true) := by
          by_contra hno
          push_neg at hno
          exact hall (List.all_eq_true.mpr fun p hp => hno p hp)
        obtain ⟨p, hp, hne⟩ := hex
        exact ⟨p, hp, fun ee => hne (by simp [ee])⟩
      · intro _
        rfl

/-- C3: when the whole SLG46620 branch returns normally, ACMP0's owner
configuration is synthesized - input set to the agreed shared source, power
enable set to the POR RST_DONE output, INFO line emitted - exactly when
ACMP0's input is still ground and at least one comparator uses the shared
mux; otherwise the device state is returned unchanged with no INFO line. -/
theorem acmp0_synthesis (dev dev1 : AcmpDevice) (info : Bool)
    (h : acmpDrc dev = .ok (dev1, info)) :
    (dev.acmp0.input = EntityOutput.gnd ∧ 0 < (acmpCollect dev.acmps).length →
      info = true ∧
      ∃ sh, acmpSharedCheck (acmpCollect dev.acmps) = .ok sh ∧
        dev1 = dev.setAcmp0 sh ∧
        dev1.acmp0.input = sh ∧
        dev1.acmp0.powerEn = dev.porRstDone ∧
        dev1.acmps.tail = dev.acmps.tail ∧
        dev1.porRstDone = dev.porRstDone) ∧
    (¬(dev.acmp0.input = EntityOutput.gnd ∧ 0 < (acmpCollect dev.acmps).length) →
      dev1 = dev ∧ info = false) := by
  simp only [acmpDrc] at h
  cases hm : acmpSharedCheck (acmpCollect dev.acmps) with
  | error e =>
    rw [hm] at h
    exact absurd h (by simp)
  | ok sh =>
    rw [hm] at h
    simp only [gt_iff_lt] at h
    by_cases hcond : dev.acmp0.input = EntityOutput.gnd ∧ 0 < (acmpCollect dev.acmps).length
    · rw [if_pos hcond] at h
      obtain ⟨rfl, rfl⟩ := Prod.mk.inj (Except.ok.inj h).symm
      refine ⟨fun _ => ?_, fun hn => absurd hcond hn⟩
      obtain ⟨a0, rest, hsplit⟩ : ∃ a0 rest, dev.acmps = a0 :: rest := by
        cases hd : dev.acmps with
        | nil =>
          rw [hd] at hcond
          simp [acmpCollect] at hcond
        | cons a0 rest => exact ⟨a0, rest, rfl⟩
      refine ⟨rfl, sh, rfl, rfl, ?_, ?_, ?_, rfl⟩ <;>
        simp [AcmpDevice.setAcmp0, AcmpDevice.acmp0, hsplit]
    · rw [if_neg hcond] at h
      obtain ⟨rfl, rfl⟩ := Prod.mk.inj (Except.ok.inj h).symm
      exact ⟨fun hc => absurd hc hcond, fun _ => ⟨rfl, rfl⟩⟩

/-- A device with ACMP0 unconfigured and one mated comparator drawing
pin 6 through the shared mux. -/
def acmpDevC : AcmpDevice :=
  { acmps := [⟨EntityOutput.gnd, none, EntityOutput.gnd⟩,
              ⟨pin6, some "cmp1", EntityOutput.gnd⟩],
    porRstDone := EntityOutput.sigOut "POR" "RST_DONE" }

/-- `acmpDevC` after the DRC synthesized the ACMP0 owner configuration. -/
def acmpDevC1 : AcmpDevice :=
  { acmps := [⟨pin6, none, EntityOutput.sigOut "POR" "RST_DONE"⟩,
              ⟨pin6, some "cmp1", EntityOutput.gnd⟩],
    porRstDone := EntityOutput.sigOut "POR" "RST_DONE" }

/-- Witness for C3: on `acmpDevC` the branch returns `acmpDevC1` with the
INFO flag set, and the synthesis description holds of it. -/
theorem acmp0_synthesis_witness :
    acmpDrc acmpDevC = .ok (acmpDevC1, true) ∧
    (acmpDevC.acmp0.input = EntityOutput.gnd ∧
        0 < (acmpCollect acmpDevC.acmps).length →
      true = true ∧
      ∃ sh, acmpSharedCheck (acmpCollect acmpDevC.acmps) = .ok sh ∧
        acmpDevC1 = acmpDevC.setAcmp0 sh ∧
        acmpDevC1.acmp0.input = sh ∧
        acmpDevC1.acmp0.powerEn = acmpDevC.porRstDone ∧
        acmpDevC1.acmps.tail = acmpDevC.acmps.tail ∧
        acmpDevC1.porRstDone = acmpDevC.porRstDone) :=
  ⟨rfl, (acmp0_synthesis acmpDevC acmpDevC1 true rfl).1⟩

/-!
## Claims about label allocation
-/

/-- C6: `AllocateLabel` fails with the internal-error diagnostic when the
two graphs hand out different ids, and otherwise returns the common id,
records the description under it, and leaves the two graphs in lockstep. -/
theorem AllocateLabel_lockstep (ng dg : PARGraph) (lmap : List (Nat × String))
    (d : String) :
    (ng.nextLabel ≠ dg.nextLabel →
      AllocateLabel ng dg lmap d =
        .error "INTERNAL ERROR: labels were allocated at the same time but do not match up") ∧
    (ng.nextLabel = dg.nextLabel →
      AllocateLabel ng dg lmap d =
        .ok (ng.nextLabel, ⟨ng.nextLabel + 1⟩, ⟨dg.nextLabel + 1⟩,
             insertLabel lmap ng.nextLabel d) ∧
      (⟨ng.nextLabel + 1⟩ : PARGraph) = ⟨dg.nextLabel + 1⟩ ∧
      (insertLabel lmap ng.nextLabel d).lookup ng.nextLabel = some d) := by
  constructor
  · intro hne
    simp [AllocateLabel, PARGraph.allocateOne, hne]
  · intro heq
    refine ⟨?_, by rw [heq], ?_⟩
    · simp [AllocateLabel, PARGraph.allocateOne, heq]
    · simp [insertLabel, List.lookup]

/-- Witness for C6: diverged graphs fail, lockstep graphs succeed. -/
theorem AllocateLabel_lockstep_witness :
    ((⟨0⟩ : PARGraph).nextLabel ≠ (⟨1⟩ : PARGraph).nextLabel ∧
      AllocateLabel ⟨0⟩ ⟨1⟩ [] "IOB" =
        .error "INTERNAL ERROR: labels were allocated at the same time but do not match up") ∧
    ((⟨0⟩ : PARGraph).nextLabel = (⟨0⟩ : PARGraph).nextLabel ∧
      (AllocateLabel ⟨0⟩ ⟨0⟩ [] "IOB" =
          .ok (0, ⟨1⟩, ⟨1⟩, insertLabel [] 0 "IOB") ∧
        (⟨1⟩ : PARGraph) = ⟨1⟩ ∧
        (insertLabel [] 0 "IOB").lookup 0 = some "IOB")) :=
  ⟨⟨by decide, (AllocateLabel_lockstep ⟨0⟩ ⟨1⟩ [] "IOB").1 (by decide)⟩,
   ⟨rfl, (AllocateLabel_lockstep ⟨0⟩ ⟨0⟩ [] "IOB").2 rfl⟩⟩

/-!
## Claims about gp4prog bitstream patching
-/

theorem setByte_oob (bs : List Nat) (i v : Nat) (h : bs.length ≤ i) :
    setByte bs i v = bs := by
  induction bs generalizing i with
  | nil => rfl
  | cons b rest ih =>
    cases i with
    | zero => simp at h
    | succ i =>
      simp only [setByte, List.cons.injEq, true_and]
      exact ih i (by simpa using h)

theorem getByte_setByte_ne (bs : List Nat) (i v k : Nat) (h : k ≠ i) :
    getByte (setByte bs i v) k = getByte bs k := by
  induction bs generalizing i k with
  | nil => rfl
  | cons b rest ih =>
    cases i with
    | zero =>
      cases k with
      | zero => exact absurd rfl h
      | succ k => simp [setByte, getByte]
    | succ i =>
      cases k with
      | zero => simp [setByte, getByte]
      | succ k =>
        simp only [setByte, getByte, List.getD_cons_succ]
        exact ih i k (fun e => h (by rw [e]))

theorem getByte_setByte_lt (bs : List Nat) (i v : Nat) (h : i < bs.length) :
    getByte (setByte bs i v) i = v := by
  induction bs generalizing i with
  | nil => simp at h
  | cons b rest ih =>
    cases i with
    | zero => simp [setByte, getByte]
    | succ i =>
      simp only [setByte, getByte, List.getD_cons_succ]
      exact ih i (by simpa using h)

theorem getByte_lt (bs : List Nat) (hb : ∀ b ∈ bs, b < 256) (k : Nat) :
    getByte bs k < 256 := by
  induction bs generalizing k with
  | nil => simp [getByte]
  | cons b rest ih =>
    cases k with
    | zero => simpa [getByte] using hb b (List.mem_cons_self _ _)
    | succ k =>
      simp only [getByte, List.getD_cons_succ]
      exact ih (fun x hx => hb x (List.mem_cons_of_mem _ hx)) k

theorem getByte_orByte_ne (bs : List Nat) (i x k : Nat) (h : k ≠ i) :
    getByte (orByte bs i x) k = getByte bs k :=
  getByte_setByte_ne bs i _ k h

theorem getByte_orByte_lt (bs : List Nat) (i x k : Nat)
    (hk : getByte bs k < 256) : getByte (orByte bs i x) k < 256 := by
  by_cases h : k = i
  · subst h
    by_cases hlen : k < bs.length
    · rw [orByte, getByte_setByte_lt _ _ _ hlen]
      exact Nat.mod_lt _ (by decide)
    · rw [orByte, setByte_oob _ _ _ (Nat.le_of_not_lt hlen)]
      exact hk
  · rw [getByte_orByte_ne _ _ _ _ h]
    exact hk

theorem testBit_orByte_mono (bs : List Nat) (i x k j : Nat)
    (hk : getByte bs k < 256) (h : (getByte bs k).testBit j = true) :
    (getByte (orByte bs i x) k).testBit j = true := by
  by_cases hki : k = i
  · subst hki
    by_cases hlen : k < bs.length
    · rw [orByte, getByte_setByte_lt _ _ _ hlen]
      have hj : j < 8 := by
        by_contra hj
        have h8 : (256 : Nat) ≤ 2 ^ j :=
          calc (256 : Nat) = 2 ^ 8 := by norm_num
          _ ≤ 2 ^ j := Nat.pow_le_pow_right (by decide) (Nat.le_of_not_lt hj)
        have hfalse : (getByte bs k).testBit j = false :=
          Nat.testBit_lt_two_pow (lt_of_lt_of_le hk h8)
        rw [hfalse] at h
        exact Bool.noConfusion h
      rw [show (256 : Nat) = 2 ^ 8 by norm_num, Nat.testBit_mod_two_pow]
      simp only [Nat.testBit_or, h, Bool.true_or, Bool.and_true]
      simpa using hj
    · rw [orByte, setByte_oob _ _ _ (Nat.le_of_not_lt hlen)]
      exact h
  · rw [getByte_orByte_ne _ _ _ _ hki]
    exact h

/-- C8: every byte of the downloaded bitstream other than 246, 247, 253
and 254 is exactly the byte read from the file, and every bit already set
in file bytes 253 and 254 (the pattern-id bits and the read-protect bit,
bit 7 of byte 254) is still set in the downloaded image - they are only
ever combined by bitwise OR. -/
theorem download_or_preserves (bs : List Nat) (rcFtw : Nat) (ps : Bool)
    (pid : Nat) (rp : Bool) (hb : ∀ b ∈ bs, b < 256) :
    (∀ i, i ≠ 246 → i ≠ 247 → i ≠ 253 → i ≠ 254 →
      getByte (applyDownloadMods bs rcFtw ps pid rp) i = getByte bs i) ∧
    (∀ j, (getByte bs 253).testBit j = true →
      (getByte (applyDownloadMods bs rcFtw ps pid rp) 253).testBit j = true) ∧
    (∀ j, (getByte bs 254).testBit j = true →
      (getByte (applyDownloadMods bs rcFtw ps pid rp) 254).testBit j = true) := by
  cases ps with
  | false =>
    simp only [applyDownloadMods, if_false, Bool.false_eq_true]
    refine ⟨?_, ?_, ?_⟩
    · intro i h1 h2 h3 h4
      rw [getByte_orByte_ne _ _ _ _ h4, getByte_orByte_ne _ _ _ _ h2,
          getByte_orByte_ne _ _ _ _ h1]
    · intro j hj
      rw [getByte_orByte_ne _ _ _ _ (by decide), getByte_orByte_ne _ _ _ _ (by decide),
          getByte_orByte_ne _ _ _ _ (by decide)]
      exact hj
    · intro j hj
      have e1 : getByte (orByte (orByte bs 246 (rcFtw <<< 7)) 247 (rcFtw >>> 1)) 254
          = getByte bs 254 := by
        rw [getByte_orByte_ne _ _ _ _ (by decide), getByte_orByte_ne _ _ _ _ (by decide)]
      apply testBit_orByte_mono
      · rw [e1]
        exact getByte_lt bs hb 254
      · rw [e1]
        exact hj
  | true =>
    simp only [applyDownloadMods, if_true]
    refine ⟨?_, ?_, ?_⟩
    · intro i h1 h2 h3 h4
      rw [getByte_orByte_ne _ _ _ _ h4, getByte_orByte_ne _ _ _ _ h4,
          getByte_orByte_ne _ _ _ _ h3, getByte_orByte_ne _ _ _ _ h2,
          getByte_orByte_ne _ _ _ _ h1]
    · intro j hj
      have e1 : getByte (orByte (orByte bs 246 (rcFtw <<< 7)) 247 (rcFtw >>> 1)) 253
          = getByte bs 253 := by
        rw [getByte_orByte_ne _ _ _ _ (by decide), getByte_orByte_ne _ _ _ _ (by decide)]
      rw [getByte_orByte_ne _ _ _ _ (by decide), getByte_orByte_ne _ _ _ _ (by decide)]
      apply testBit_orByte_mono
      · rw [e1]
        exact getByte_lt bs hb 253
      · rw [e1]
        exact hj
    · intro j hj
      have hlt2 : getByte (orByte (orByte bs 246 (rcFtw <<< 7)) 247 (rcFtw >>> 1)) 254 < 256 :=
        getByte_orByte_lt _ _ _ _ (getByte_orByte_lt _ _ _ _ (getByte_lt bs hb 254))
      have hlt3 : getByte (orByte (orByte (orByte bs 246 (rcFtw <<< 7)) 247 (rcFtw >>> 1))
          253 (pid <<< 7)) 254 < 256 :=
        getByte_orByte_lt _ _ _ _ hlt2
      have hlt4 : getByte (orByte (orByte (orByte (orByte bs 246 (rcFtw <<< 7)) 247
          (rcFtw >>> 1)) 253 (pid <<< 7)) 254 (pid >>> 1)) 254 < 256 :=
        getByte_orByte_lt _ _ _ _ hlt3
      apply testBit_orByte_mono _ _ _ _ _ hlt4
      apply testBit_orByte_mono _ _ _ _ _ hlt3
      have e1 : getByte (orByte (orByte (orByte bs 246 (rcFtw <<< 7)) 247 (rcFtw >>> 1))
          253 (pid <<< 7)) 254 = getByte bs 254 := by
        rw [getByte_orByte_ne _ _ _ _ (by decide), getByte_orByte_ne _ _ _ _ (by decide),
            getByte_orByte_ne _ _ _ _ (by decide)]
      rw [e1]
      exact hj

/-- Witness for C8 on a concrete three-byte list. -/
theorem download_or_preserves_witness :
    (∀ b ∈ ([10, 200, 30] : List Nat), b < 256) ∧
    getByte (applyDownloadMods [10, 200, 30] 255 true 129 true) 1
      = getByte [10, 200, 30] 1 :=
  ⟨by decide,
    (download_or_preserves [10, 200, 30] 255 true 129 true (by decide)).1 1
      (by decide) (by decide) (by decide) (by decide)⟩

/-!
## Claims about module loading
-/

/-- C9: on a module whose "ports" object declares the port "foo" twice, the
constructor's redeclaration diagnostic prints the outer loop variable
`name` (the group key "ports"), not the redeclared port's name `cname`
("foo"), before exiting. -/
theorem port_redeclaration_diagnostic_names_group :
    loadPorts "ports" ["foo", "foo"] [] =
      .error "ERROR: Attempted redeclaration of module port \x22ports\x22" ∧
    loadPorts "ports" ["foo", "foo"] [] ≠
      .error "ERROR: Attempted redeclaration of module port \x22foo\x22" := by
  refine ⟨rfl, fun h => ?_⟩
  rw [show loadPorts "ports" ["foo", "foo"] [] =
      Except.error "ERROR: Attempted redeclaration of module port \x22ports\x22" from rfl] at h
  exact absurd (Except.error.inj h) (by decide)

/-- C10: `GetNode` is idempotent: a second call with the same net number
returns the node the first call produced and leaves the node table exactly
as the first call left it. -/
theorem GetNode_idempotent (m : ModuleNodes) (k : Int) :
    GetNode (GetNode m k).2 k = GetNode m k := by
  unfold GetNode
  cases h : m.nodes.lookup k with
  | some id => simp [h]
  | none => simp [h, lookup_append_single h]

/-!
## Claims about the DoPAR driver
-/

/-- C7: when the engine fails, `DoPAR` prints the placement report and
"PAR failed" and returns false with the device state untouched - neither
`CommitChanges` nor `PostPARDRC` appears in the trace; when the engine
succeeds it commits, runs the DRC, prints the utilization and placement
reports and returns true. -/
theorem DoPAR_failure_leaves_device_unchanged {α : Type}
    (commit drc : α → α) (dev : α) :
    (DoPAR false commit drc dev
        = (false, dev, [ParAction.printPlacementReport, ParAction.printMsgParFailed]) ∧
      ParAction.commitChanges ∉ (DoPAR false commit drc dev).2.2 ∧
      ParAction.postParDrc ∉ (DoPAR false commit drc dev).2.2) ∧
    DoPAR true commit drc dev
      = (true, drc (commit dev),
          [ParAction.commitChanges, ParAction.postParDrc,
           ParAction.printUtilizationReport, ParAction.printPlacementReport]) := by
  refine ⟨⟨rfl, ?_, ?_⟩, rfl⟩ <;> simp [DoPAR]

end OpenFPGA
